import Mathlib

/-!
Verification of the wallet synchronization core of the cryptopower repository.

The Go sources are shallowly embedded as executable Lean definitions:

* `Btc` — the BTC asset backend startup (`startWallet` in libwallet/wallets/btc),
  including its peer-selection switch and its staged rollback on partial
  failure.  External steps (wallet-existence check, wallet open, database open,
  chain-service construction, chain-client start) are modelled by an
  environment of success flags; the function returns the error outcome
  together with the ordered trace of observable actions it performed.
* `Treasury` — the `TreasuryPage` of ui/page/governance and its
  `isPolicyFetchInProgress` flag.
* `Selector` — the `WalletSelector` components of ui/page/components, their
  `ListenForTxNotifications` registration/cancellation protocol against the
  multiwallet notification hub, and the `setupWallet`/balance helpers.
* `Staking` — the staking page of ui/page (ticket-buyer password modal
  callback and `fetchTicketPrice`).
-/

namespace Btc

/-- Network kinds distinguished by the peer-selection switch in `startWallet`
(`wire.MainNet`, `wire.TestNet3`, `wire.TestNet` i.e. regtest, `wire.SimNet`,
and any other value, which the switch leaves untouched). -/
inductive Net
  | mainNet
  | testNet3
  | testNet
  | simNet
  | otherNet
deriving DecidableEq, Repr

/-- Peer lists `(AddPeers, ConnectPeers)` chosen by the `switch
asset.chainParams.Net` statement of `startWallet`: both start empty, mainnet
and testnet3 each add one seed peer to `AddPeers`, regtest (plain
`wire.TestNet`) and simnet set a localhost `ConnectPeers` entry. -/
def peersForNet : Net → List String × List String
  | Net.mainNet => (["cfilters.ssgen.io"], [])
  | Net.testNet3 => (["dex-test.ssgen.io"], [])
  | Net.testNet => ([], ["localhost:20575"])
  | Net.simNet => ([], ["localhost:20575"])
  | Net.otherNet => ([], [])

/-- Observable actions performed by `startWallet`, in program order. -/
inductive Action
  | openWallet
  | openDB
  | closeDB
  | newChainService
  | newChainClient
  | stopChainService
  | startChainClient
  | synchronizeRPC
deriving DecidableEq, Repr

/-- Error outcomes of `startWallet`, one per `return` site that carries an
error.  The last three correspond to the spec taxonomy: failure to open the
neutrino index database is `storageUnavailable`; failure to construct the
chain service or to start the chain client is a network-initialization
failure. -/
inductive StartErr
  | walletExistenceCheckFailed
  | walletNotFound
  | openWalletFailed
  | storageUnavailable
  | chainServiceFailed
  | chainClientStartFailed
deriving DecidableEq, Repr

/-- Classifies the two network-initialization failure sites of `startWallet`
(`couldn't create Neutrino ChainService` and `couldn't start Neutrino
client`). -/
def StartErr.isNetworkInitFailed : StartErr → Bool
  | StartErr.chainServiceFailed => true
  | StartErr.chainClientStartFailed => true
  | _ => false

/-- Environment of `startWallet`: which of its fallible external steps
succeed. -/
structure Env where
  walletExistsCheckOk : Bool
  walletExists : Bool
  openWalletOk : Bool
  openDBOk : Bool
  newChainServiceOk : Bool
  chainClientStartOk : Bool
deriving DecidableEq, Repr

/-- Release actions run by the `bailOnWalletAndDB` closure of `startWallet`:
close the neutrino index database. -/
def bailOnWalletAndDB : List Action := [Action.closeDB]

/-- Release actions run by the `bailOnEverything` closure of `startWallet`:
stop the chain service, then run `bailOnWalletAndDB`. -/
def bailOnEverything : List Action := Action.stopChainService :: bailOnWalletAndDB

/-- Embedding of `(*BTCAsset).startWallet`.  Returns the error outcome (`none`
on success) paired with the ordered trace of observable actions: successful
acquisitions, release actions fired on a later failure, and the final
`SynchronizeRPC` attachment on full success. -/
def startWallet (env : Env) : Option StartErr × List Action :=
  if !env.walletExistsCheckOk then (some StartErr.walletExistenceCheckFailed, [])
  else if !env.walletExists then (some StartErr.walletNotFound, [])
  else if !env.openWalletOk then (some StartErr.openWalletFailed, [])
  else
    let tr := [Action.openWallet]
    if !env.openDBOk then (some StartErr.storageUnavailable, tr)
    else
      let tr := tr ++ [Action.openDB]
      if !env.newChainServiceOk then
        (some StartErr.chainServiceFailed, tr ++ bailOnWalletAndDB)
      else
        let tr := tr ++ [Action.newChainService, Action.newChainClient]
        if !env.chainClientStartOk then
          (some StartErr.chainClientStartFailed, tr ++ bailOnEverything)
        else
          (none, tr ++ [Action.startChainClient, Action.synchronizeRPC])

/-- C1: on a later acquisition failure inside `startWallet`, releases run in
strict reverse order of acquisition, each exactly once, and the error
propagates: if chain-service construction fails after the index database was
opened, the trace is exactly open-wallet, open-db, close-db (the database is
closed before return); if the chain client's `Start` fails after the chain
service was constructed, the chain service is stopped first and then the
database is closed, each once, and in both cases an error is returned. -/
theorem startWallet_rollback_order (env : Env)
    (h1 : env.walletExistsCheckOk = true) (h2 : env.walletExists = true)
    (h3 : env.openWalletOk = true) (h4 : env.openDBOk = true) :
    (env.newChainServiceOk = false →
        (startWallet env).1 = some StartErr.chainServiceFailed ∧
        (startWallet env).2 = [Action.openWallet, Action.openDB, Action.closeDB]) ∧
    (env.newChainServiceOk = true → env.chainClientStartOk = false →
        (startWallet env).1 = some StartErr.chainClientStartFailed ∧
        (startWallet env).2 = [Action.openWallet, Action.openDB, Action.newChainService,
          Action.newChainClient, Action.stopChainService, Action.closeDB]) := by
  constructor
  · intro h5
    simp [startWallet, bailOnWalletAndDB, h1, h2, h3, h4, h5]
  · intro h5 h6
    simp [startWallet, bailOnEverything, bailOnWalletAndDB, h1, h2, h3, h4, h5, h6]

/-- Witness for `startWallet_rollback_order` at a concrete environment where
chain-service construction fails after the database step succeeded. -/
theorem startWallet_rollback_order_witness :
    (startWallet ⟨true, true, true, true, false, false⟩).1 =
      some StartErr.chainServiceFailed ∧
    (startWallet ⟨true, true, true, true, false, false⟩).2 =
      [Action.openWallet, Action.openDB, Action.closeDB] :=
  (startWallet_rollback_order ⟨true, true, true, true, false, false⟩
    rfl rfl rfl rfl).1 rfl

/-- C2: the peers configured by `startWallet` depend only on the network kind
(`peersForNet` is a function of the network alone): mainnet and testnet3 each
get a single network-specific seed peer as an `AddPeers` hint and no forced
connect peer, while regtest and simnet get the explicit localhost connect
peer and no discovery hints. -/
theorem peersForNet_policy :
    peersForNet Net.mainNet = (["cfilters.ssgen.io"], []) ∧
    peersForNet Net.testNet3 = (["dex-test.ssgen.io"], []) ∧
    peersForNet Net.testNet = ([], ["localhost:20575"]) ∧
    peersForNet Net.simNet = ([], ["localhost:20575"]) ∧
    (∀ n : Net, (peersForNet n).1.length ≤ 1 ∧ (peersForNet n).2.length ≤ 1) ∧
    (∀ n : Net, (peersForNet n).1 ≠ [] → (peersForNet n).2 = []) := by
  refine ⟨rfl, rfl, rfl, rfl, ?_, ?_⟩
  · intro n; cases n <;> simp [peersForNet]
  · intro n; cases n <;> simp [peersForNet]

/-- C6: classification of `startWallet` outcomes.  `storageUnavailable` is
returned exactly when the index database open step runs and fails;
a network-initialization failure is returned exactly when the database was
opened and either the chain service cannot be constructed or the chain client
cannot be started; `SynchronizeRPC` is reached exactly when `startWallet`
succeeds, which happens exactly when every acquisition step succeeded. -/
theorem startWallet_error_classification :
    ∀ env : Env,
      ((startWallet env).1 = some StartErr.storageUnavailable ↔
        (env.walletExistsCheckOk = true ∧ env.walletExists = true ∧
         env.openWalletOk = true ∧ env.openDBOk = false)) ∧
      (((startWallet env).1.elim false StartErr.isNetworkInitFailed) = true ↔
        (env.walletExistsCheckOk = true ∧ env.walletExists = true ∧
         env.openWalletOk = true ∧ env.openDBOk = true ∧
         (env.newChainServiceOk = false ∨ env.chainClientStartOk = false))) ∧
      (Action.synchronizeRPC ∈ (startWallet env).2 ↔ (startWallet env).1 = none) ∧
      ((startWallet env).1 = none ↔
        (env.walletExistsCheckOk = true ∧ env.walletExists = true ∧
         env.openWalletOk = true ∧ env.openDBOk = true ∧
         env.newChainServiceOk = true ∧ env.chainClientStartOk = true)) := by
  intro env
  rcases env with ⟨a, b, c, d, e, f⟩
  revert a b c d e f
  decide

end Btc

namespace Treasury

/-- Mutable state of `TreasuryPage` relevant to the policy fetch: the
in-progress flag and the fetched treasury items (modelled by their labels). -/
structure PageState where
  isPolicyFetchInProgress : Bool
  treasuryItems : List String
deriving DecidableEq, Repr

/-- Operations of `TreasuryPage` that can run after page construction.
`fetchPoliciesStart` is the synchronous body of `FetchPolicies` (sets the
flag to true and spawns the background fetch); `fetchPoliciesComplete` is the
background goroutine finishing (stores the loaded items and assigns true to
the flag again); `onNavigatedTo` calls `FetchPolicies`; the remaining
operations (`HandleUserInteractions`, `OnNavigatedFrom`, `Layout`,
and both outcomes of `updatePolicyPreference`) never write the flag. -/
inductive Op
  | fetchPoliciesStart
  | fetchPoliciesComplete (items : List String)
  | onNavigatedTo
  | handleUserInteractions
  | onNavigatedFrom
  | layout
  | updatePolicyPreferenceFailed
  | updatePolicyPreferenceSucceeded
deriving DecidableEq, Repr

/-- State transition of each `TreasuryPage` operation, read off the source:
only `FetchPolicies` (and the operations that invoke it) touch
`isPolicyFetchInProgress`, and every write stores `true`. -/
def Op.apply : Op → PageState → PageState
  | Op.fetchPoliciesStart, s => { s with isPolicyFetchInProgress := true }
  | Op.fetchPoliciesComplete items, s =>
      { s with treasuryItems := items, isPolicyFetchInProgress := true }
  | Op.onNavigatedTo, s => { s with isPolicyFetchInProgress := true }
  | Op.handleUserInteractions, s => s
  | Op.onNavigatedFrom, s => s
  | Op.layout, s => s
  | Op.updatePolicyPreferenceFailed, s => s
  | Op.updatePolicyPreferenceSucceeded, s => s

/-- Runs a sequence of `TreasuryPage` operations from a state. -/
def run (s : PageState) (ops : List Op) : PageState :=
  ops.foldl (fun st op => Op.apply op st) s

/-- Helper: no `TreasuryPage` operation clears a set in-progress flag. -/
theorem apply_preserves_flag (op : Op) (s : PageState)
    (h : s.isPolicyFetchInProgress = true) :
    (Op.apply op s).isPolicyFetchInProgress = true := by
  cases op <;> simp [Op.apply, h]

/-- C3: once `FetchPolicies` has run, the in-progress flag stays `true` under
every subsequent sequence of `TreasuryPage` operations; in particular the
background completion of the fetch assigns `true` again instead of clearing
the flag. -/
theorem policy_fetch_flag_never_cleared (s : PageState) (ops : List Op) :
    (Op.apply Op.fetchPoliciesStart s).isPolicyFetchInProgress = true ∧
    (∀ items, (Op.apply (Op.fetchPoliciesComplete items) s).isPolicyFetchInProgress = true) ∧
    (run (Op.apply Op.fetchPoliciesStart s) ops).isPolicyFetchInProgress = true := by
  refine ⟨rfl, fun items => rfl, ?_⟩
  have key : ∀ (l : List Op) (st : PageState),
      st.isPolicyFetchInProgress = true → (run st l).isPolicyFetchInProgress = true := by
    intro l
    induction l with
    | nil => intro st h; simpa [run] using h
    | cons op rest ih =>
        intro st h
        simpa [run] using ih (Op.apply op st) (apply_preserves_flag op st h)
  exact key ops (Op.apply Op.fetchPoliciesStart s) rfl

end Treasury

namespace Staking

/-- User-interface actions observable from the ticket-buyer password modal's
positive-button callback. -/
inductive UAction
  | setErrorNotConnected
  | setErrorStartTicketBuyerFailed
  | setLoadingFalse
  | setChecked (b : Bool)
  | startTicketBuyer
  | reloadWindow
  | dismissModal
deriving DecidableEq, Repr

/-- Environment of the positive-button callback: connectivity of the selected
wallet, whether `StartTicketBuyer` would succeed, and what
`IsAutoTicketsPurchaseActive` reports afterwards. -/
structure TBEnv where
  isConnectedToDecredNetwork : Bool
  startTicketBuyerOk : Bool
  isAutoTicketsPurchaseActive : Bool
deriving DecidableEq, Repr

/-- Embedding of the `SetPositiveButtonCallback` closure of
`startTicketBuyerPasswordModal`: the returned boolean is the callback's
return value, the list is the ordered trace of actions it performs. -/
def ticketBuyerPositiveCallback (env : TBEnv) : Bool × List UAction :=
  if !env.isConnectedToDecredNetwork then
    (false, [UAction.setErrorNotConnected, UAction.setLoadingFalse,
      UAction.setChecked false])
  else if !env.startTicketBuyerOk then
    (false, [UAction.startTicketBuyer, UAction.setErrorStartTicketBuyerFailed,
      UAction.setLoadingFalse])
  else
    (false, [UAction.startTicketBuyer,
      UAction.setChecked env.isAutoTicketsPurchaseActive,
      UAction.reloadWindow, UAction.dismissModal])

/-- C7: when the wallet is disconnected, the ticket-buyer callback reports the
not-connected error, resets the stake switch to unchecked, returns false, and
never calls `StartTicketBuyer`. -/
theorem ticketBuyer_notConnected_rejects (env : TBEnv)
    (h : env.isConnectedToDecredNetwork = false) :
    (ticketBuyerPositiveCallback env).2 =
      [UAction.setErrorNotConnected, UAction.setLoadingFalse,
        UAction.setChecked false] ∧
    UAction.startTicketBuyer ∉ (ticketBuyerPositiveCallback env).2 ∧
    (ticketBuyerPositiveCallback env).1 = false := by
  simp [ticketBuyerPositiveCallback, h]

/-- Witness for `ticketBuyer_notConnected_rejects` at a concrete disconnected
environment. -/
theorem ticketBuyer_notConnected_rejects_witness :
    (ticketBuyerPositiveCallback ⟨false, true, true⟩).2 =
      [UAction.setErrorNotConnected, UAction.setLoadingFalse,
        UAction.setChecked false] ∧
    UAction.startTicketBuyer ∉ (ticketBuyerPositiveCallback ⟨false, true, true⟩).2 ∧
    (ticketBuyerPositiveCallback ⟨false, true, true⟩).1 = false :=
  ticketBuyer_notConnected_rejects ⟨false, true, true⟩ rfl

/-- Result record of `(*dcr.Wallet).TicketPrice`, as dereferenced by
`fetchTicketPrice` (`ticketPrice.TicketPrice`). -/
structure TicketPriceRes where
  ticketPriceAtoms : Int
deriving DecidableEq, Repr

/-- Environment of `fetchTicketPrice`: the pointer result and error returned
by `TicketPrice` (a nil pointer is `none`), and what `IsSynced` reports. -/
structure FetchEnv where
  ticketPriceResult : Option TicketPriceRes
  ticketPriceErr : Bool
  isSynced : Bool
deriving DecidableEq, Repr

/-- Outcomes of `fetchTicketPrice`: the error branch showing the
not-available string and the wallet-not-synced modal; the else branch
formatting the returned price; or the else branch dereferencing a nil
`ticketPrice` pointer. -/
inductive FetchOutcome
  | notAvailableShown
  | priceSet (p : Int)
  | nilDereference
deriving DecidableEq, Repr

/-- Embedding of `(*Page).fetchTicketPrice`: the error branch is guarded by
`err != nil && !IsSynced()`; every other case runs the else branch, which
reads `ticketPrice.TicketPrice` from the possibly-nil result. -/
def fetchTicketPrice (env : FetchEnv) : FetchOutcome :=
  if env.ticketPriceErr && !env.isSynced then FetchOutcome.notAvailableShown
  else
    match env.ticketPriceResult with
    | some r => FetchOutcome.priceSet r.ticketPriceAtoms
    | none => FetchOutcome.nilDereference

/-- C9: the error branch of `fetchTicketPrice` runs exactly when
`TicketPrice` errored and the wallet is not synced, so the input where
`TicketPrice` errors with a nil result while the wallet reports synced
reaches the else branch and dereferences the nil result. -/
theorem fetchTicketPrice_guard_incomplete :
    (∀ env : FetchEnv, fetchTicketPrice env = FetchOutcome.notAvailableShown ↔
        (env.ticketPriceErr = true ∧ env.isSynced = false)) ∧
    fetchTicketPrice ⟨none, true, true⟩ = FetchOutcome.nilDereference := by
  refine ⟨?_, rfl⟩
  intro env
  rcases env with ⟨res, err, sy⟩
  cases err <;> cases sy <;> cases res <;> simp [fetchTicketPrice]

end Staking

namespace Selector

/-- Per-wallet registry of the multiwallet notification hub: the registered
subscribers, each a (subscriberID, channel) pair.  Channels are identified by
numbers. -/
structure Hub where
  subs : List (String × Nat)
deriving DecidableEq, Repr

/-- Errors of the notification hub registration. -/
inductive HubErr
  | duplicateSubscriber
deriving DecidableEq, Repr

/-- Modelled from the spec: `AddTxAndBlockNotificationListener` (the hub side
of `AddListener`) is not among the sources, only its callers are.  Per the
spec it fails with `DuplicateSubscriber` when the subscriberID is already
registered and active for this wallet, and does not replace the existing
channel; otherwise it registers the new subscriber. -/
def addListener (h : Hub) (sid : String) (ch : Nat) : Except HubErr Hub :=
  if h.subs.any (fun p => p.1 == sid) then Except.error HubErr.duplicateSubscriber
  else Except.ok { h with subs := h.subs ++ [(sid, ch)] }

/-- Modelled from the spec: `RemoveTxAndBlockNotificationListener` (the hub
side of `RemoveListener`) is not among the sources.  Per the spec it removes
the subscriber registered under the ID; a second call is a no-op. -/
def removeListener (h : Hub) (sid : String) : Hub :=
  { h with subs := h.subs.filter (fun p => !(p.1 == sid)) }

/-- Subscriber ID used by `WalletSelector.ListenForTxNotifications`.  The
constant `AccoutSelectorID` is declared in a sibling source file; its value
stands in for that string and is never inspected. -/
def AccoutSelectorID : String := "AccoutSelector"

/-- State of a `WalletSelector` together with the hub registry it talks to:
the `TxAndBlockNotificationListener` field (channel of the attached listener,
`none` when the field is nil), the hub, the set of closed channels, and a
fresh-channel counter standing for `NewTxAndBlockNotificationListener`
allocating a new `TxAndBlockNotifChan`. -/
structure WSState where
  listener : Option Nat
  hub : Hub
  closedChans : List Nat
  nextChan : Nat
deriving DecidableEq, Repr

/-- Embedding of `(*WalletSelector).ListenForTxNotifications` registration:
returns immediately when a listener is already attached; otherwise allocates
a fresh listener channel, stores it in the field, and registers it with the
hub under `AccoutSelectorID` (on a hub error the function logs and returns,
leaving the field assigned). -/
def listenForTxNotifications (ws : WSState) : WSState :=
  match ws.listener with
  | some _ => ws
  | none =>
      let ch := ws.nextChan
      let ws1 : WSState :=
        { ws with listener := some ch, nextChan := ws.nextChan + 1 }
      match addListener ws1.hub AccoutSelectorID ch with
      | Except.error _ => ws1
      | Except.ok h2 => { ws1 with hub := h2 }

/-- Embedding of the cancellation branch of the listener goroutine of
`ListenForTxNotifications` (the `ctx.Done()` case): remove the hub
registration under `AccoutSelectorID`, close `TxAndBlockNotifChan`, and reset
the listener field to nil.  Without an attached listener the goroutine does
not run. -/
def cancelListener (ws : WSState) : WSState :=
  match ws.listener with
  | none => ws
  | some ch =>
      { ws with
          hub := removeListener ws.hub AccoutSelectorID,
          closedChans := ws.closedChans ++ [ch],
          listener := none }

/-- Channels on which the hub delivers an incoming notification event: the
channel of every currently registered subscriber. -/
def dispatch (ws : WSState) : List Nat :=
  ws.hub.subs.map (fun p => p.2)

/-- Helper: after filtering an ID out of the registry, no entry under that ID
remains. -/
theorem any_id_filter_false (sid : String) (l : List (String × Nat)) :
    ((l.filter (fun p => !(p.1 == sid))).any (fun p => p.1 == sid)) = false := by
  induction l with
  | nil => rfl
  | cons p rest ih =>
      cases h : (p.1 == sid) <;> simp [List.filter_cons, h, ih]

/-- C4: a second `ListenForTxNotifications` call while a listener is already
attached leaves the state (listener, its channel, the hub registration)
unchanged, and a hub registration under an already-active subscriberID fails
with `DuplicateSubscriber`, returning no replacement registry. -/
theorem listen_duplicate_no_replace (ws : WSState) (hub : Hub) (sid : String) (ch : Nat)
    (hattached : ws.listener.isSome = true)
    (hdup : (hub.subs.any (fun p => p.1 == sid)) = true) :
    listenForTxNotifications ws = ws ∧
    addListener hub sid ch = Except.error HubErr.duplicateSubscriber := by
  constructor
  · cases h : ws.listener with
    | none => rw [h] at hattached; cases hattached
    | some c => simp [listenForTxNotifications, h]
  · simp [addListener, hdup]

/-- Witness for `listen_duplicate_no_replace` at a concrete attached selector
and a registry that already holds the subscriberID. -/
theorem listen_duplicate_no_replace_witness :
    listenForTxNotifications ⟨some 0, ⟨[(AccoutSelectorID, 0)]⟩, [], 1⟩ =
      ⟨some 0, ⟨[(AccoutSelectorID, 0)]⟩, [], 1⟩ ∧
    addListener ⟨[(AccoutSelectorID, 5)]⟩ AccoutSelectorID 9 =
      Except.error HubErr.duplicateSubscriber :=
  listen_duplicate_no_replace ⟨some 0, ⟨[(AccoutSelectorID, 0)]⟩, [], 1⟩
    ⟨[(AccoutSelectorID, 5)]⟩ AccoutSelectorID 9 rfl (by decide)

/-- Helper: a channel registered only under an ID that the filter removes is
never the channel of a surviving registry entry. -/
theorem not_mem_map_filter (sid : String) (ch : Nat) (l : List (String × Nat))
    (hch : ∀ p ∈ l, p.2 = ch → p.1 = sid) :
    ch ∉ (l.filter (fun p => !(p.1 == sid))).map (fun p => p.2) := by
  intro hmem
  rcases List.mem_map.mp hmem with ⟨p, hp, hpch⟩
  rcases List.mem_filter.mp hp with ⟨hpmem, hpkeep⟩
  have hid : p.1 = sid := hch p hpmem hpch
  simp [hid] at hpkeep

/-- C5: after cancellation of an attached listener whose channel is
registered only under the selector's subscriberID, the listener field is
reset, the channel is closed, no registration under the ID remains, the hub
never dispatches to that channel again, and a subsequent
`ListenForTxNotifications` under the same ID attaches and registers a fresh
listener. -/
theorem cancel_closes_and_clears (ws : WSState) (ch : Nat)
    (hl : ws.listener = some ch)
    (hch : ∀ p ∈ ws.hub.subs, p.2 = ch → p.1 = AccoutSelectorID) :
    (cancelListener ws).listener = none ∧
    ch ∈ (cancelListener ws).closedChans ∧
    ((cancelListener ws).hub.subs.any (fun p => p.1 == AccoutSelectorID)) = false ∧
    ch ∉ dispatch (cancelListener ws) ∧
    (listenForTxNotifications (cancelListener ws)).listener =
      some (cancelListener ws).nextChan ∧
    (listenForTxNotifications (cancelListener ws)).hub.subs =
      (cancelListener ws).hub.subs ++ [(AccoutSelectorID, (cancelListener ws).nextChan)] := by
  have hno2 : ((ws.hub.subs.filter (fun p => !(p.1 == AccoutSelectorID))).any
      (fun p => p.1 == AccoutSelectorID)) = false :=
    any_id_filter_false AccoutSelectorID ws.hub.subs
  have hno : ((cancelListener ws).hub.subs.any (fun p => p.1 == AccoutSelectorID)) = false := by
    simp [cancelListener, hl, removeListener, hno2]
  refine ⟨by simp [cancelListener, hl], by simp [cancelListener, hl], hno, ?_, ?_, ?_⟩
  · have hdeq : dispatch (cancelListener ws) =
        (ws.hub.subs.filter (fun p => !(p.1 == AccoutSelectorID))).map (fun p => p.2) := by
      simp [dispatch, cancelListener, hl, removeListener]
    rw [hdeq]
    exact not_mem_map_filter AccoutSelectorID ch ws.hub.subs hch
  · simp [listenForTxNotifications, cancelListener, hl, addListener, removeListener, hno2]
  · simp [listenForTxNotifications, cancelListener, hl, addListener, removeListener, hno2]

/-- Witness for `cancel_closes_and_clears` at a concrete selector with one
attached listener registered in the hub. -/
theorem cancel_closes_and_clears_witness :
    (cancelListener ⟨some 3, ⟨[(AccoutSelectorID, 3)]⟩, [], 7⟩).listener = none ∧
    3 ∈ (cancelListener ⟨some 3, ⟨[(AccoutSelectorID, 3)]⟩, [], 7⟩).closedChans ∧
    ((cancelListener ⟨some 3, ⟨[(AccoutSelectorID, 3)]⟩, [], 7⟩).hub.subs.any
      (fun p => p.1 == AccoutSelectorID)) = false ∧
    3 ∉ dispatch (cancelListener ⟨some 3, ⟨[(AccoutSelectorID, 3)]⟩, [], 7⟩) ∧
    (listenForTxNotifications
        (cancelListener ⟨some 3, ⟨[(AccoutSelectorID, 3)]⟩, [], 7⟩)).listener =
      some (cancelListener ⟨some 3, ⟨[(AccoutSelectorID, 3)]⟩, [], 7⟩).nextChan ∧
    (listenForTxNotifications
        (cancelListener ⟨some 3, ⟨[(AccoutSelectorID, 3)]⟩, [], 7⟩)).hub.subs =
      (cancelListener ⟨some 3, ⟨[(AccoutSelectorID, 3)]⟩, [], 7⟩).hub.subs ++
        [(AccoutSelectorID,
          (cancelListener ⟨some 3, ⟨[(AccoutSelectorID, 3)]⟩, [], 7⟩).nextChan)] :=
  cancel_closes_and_clears ⟨some 3, ⟨[(AccoutSelectorID, 3)]⟩, [], 7⟩ 3 rfl (by decide)

end Selector

namespace Selector

/-- Account balance record as read through `account.Balance`; the Go
`Spendable` field is an int64, carried here as an `Int` whose every
accumulation step wraps through `addInt64`. -/
structure AccountBalance where
  spendable : Int
deriving DecidableEq, Repr

/-- Account record as returned by `GetAccountsRaw` and consulted by the
balance helpers; the Go `TotalBalance` field is an int64, carried here as an
`Int` whose every accumulation step wraps through `addInt64`. -/
structure Account where
  number : Nat
  name : String
  totalBalance : Int
  balance : AccountBalance
deriving DecidableEq, Repr

/-- Wallet as seen by the selector components: identity, name, watch-only
flag, and the account list the backend currently reports. -/
structure Wallet where
  id : Nat
  name : String
  isWatchingOnlyWallet : Bool
  accounts : List Account
deriving DecidableEq, Repr

/-- Two's-complement wrap of an integer into the int64 range, the overflow
semantics of Go int64 arithmetic.  9223372036854775808 is 2 to the 63rd
power, 18446744073709551616 is 2 to the 64th. -/
def wrapInt64 (x : Int) : Int :=
  (x + 9223372036854775808) % 18446744073709551616 - 9223372036854775808

/-- Go int64 addition: mathematical addition followed by the int64 wrap. -/
def addInt64 (a b : Int) : Int := wrapInt64 (a + b)

/-- Wrapping accumulation of a list of int64 values, as a Go `+=` loop over
an int64 accumulator starting at zero produces it. -/
def wrapSumInt64 (l : List Int) : Int := l.foldl addInt64 0

/-- Backend query `GetAccountsRaw` at the moment of one call: on success the
account list the backend currently reports for the wallet; on failure a nil
result pointer (`none`) — the balance helpers discard the error return. -/
def getAccountsRaw (wal : Wallet) (queryOk : Bool) : Option (List Account) :=
  if queryOk then some wal.accounts else none

/-- Embedding of `walletBalance` (dcr variant): calls `GetAccountsRaw`,
discards the error, and ranges over `accountsResult.Acc` accumulating
`TotalBalance` and `Balance.Spendable` in two int64 accumulators; `none`
models the dereference of the nil `accountsResult` when the discarded error
was non-nil, where no pair is produced. -/
def walletBalance (wal : Wallet) (queryOk : Bool) : Option (Int × Int) :=
  match getAccountsRaw wal queryOk with
  | none => none
  | some accs =>
      some (accs.foldl
        (fun acc account =>
          (addInt64 acc.1 account.totalBalance,
           addInt64 acc.2 account.balance.spendable))
        (0, 0))

/-- Embedding of `wallBalance` (libwallet variant): the same discarded-error
`GetAccountsRaw` call and int64 accumulation loop as `walletBalance`. -/
def wallBalance (wal : Wallet) (queryOk : Bool) : Option (Int × Int) :=
  match getAccountsRaw wal queryOk with
  | none => none
  | some accs =>
      some (accs.foldl
        (fun acc account =>
          (addInt64 acc.1 account.totalBalance,
           addInt64 acc.2 account.balance.spendable))
        (0, 0))

/-- Account with both balances equal to 2 to the 62nd power of atoms, each
within int64 range on its own. -/
def overflowAccount : Account :=
  ⟨0, "spill", 4611686018427387904, ⟨4611686018427387904⟩⟩

/-- Wallet holding two copies of `overflowAccount`: the true balance sums are
2 to the 63rd power, one past the int64 maximum, so the int64 accumulation
wraps. -/
def overflowWallet : Wallet :=
  ⟨9, "overflow", false, [overflowAccount, overflowAccount]⟩

/-- Embedding of `(*SelectorModal).setupWallet`: iterates over
`SortedWalletList` and appends each wallet, but the guard consults the watch-
only flag of the globally selected wallet, not of the candidate. -/
def setupWallet (sortedWalletList : List Wallet) (selectedWallet : Wallet) : List Wallet :=
  sortedWalletList.foldl
    (fun acc wal =>
      if !selectedWallet.isWatchingOnlyWallet then acc ++ [wal] else acc)
    []

/-- Helper: wrapping an integer already inside the int64 range is the
identity. -/
theorem wrapInt64_eq_self (x : Int)
    (h1 : -9223372036854775808 ≤ x) (h2 : x ≤ 9223372036854775807) :
    wrapInt64 x = x := by
  have h0 : (0 : Int) ≤ x + 9223372036854775808 := by omega
  have hlt : x + 9223372036854775808 < 18446744073709551616 := by omega
  unfold wrapInt64
  rw [Int.emod_eq_of_lt h0 hlt]
  omega

/-- Helper: the paired int64 accumulation loop of the balance helpers equals
the two componentwise wrapping accumulations. -/
theorem balance_foldl_wrap (l : List Account) (t s : Int) :
    l.foldl (fun acc account =>
        (addInt64 acc.1 account.totalBalance,
         addInt64 acc.2 account.balance.spendable)) (t, s) =
      ((l.map (fun a => a.totalBalance)).foldl addInt64 t,
       (l.map (fun a => a.balance.spendable)).foldl addInt64 s) := by
  induction l generalizing t s with
  | nil => simp
  | cons a rest ih => simp [List.foldl, ih]

/-- Helper: a wrapping accumulation of nonnegative values whose true sum does
not exceed the int64 maximum never wraps, so it equals the exact sum. -/
theorem addInt64_foldl_eq_sum (l : List Int) :
    ∀ t : Int, 0 ≤ t → (∀ x ∈ l, 0 ≤ x) →
      t + l.sum ≤ 9223372036854775807 →
      l.foldl addInt64 t = t + l.sum := by
  induction l with
  | nil => intro t _ _ _; simp
  | cons x rest ih =>
      intro t h0 hall hle
      have hx : 0 ≤ x := hall x (by simp)
      have hrest : ∀ y ∈ rest, 0 ≤ y := fun y hy => hall y (by simp [hy])
      have hsumrest : 0 ≤ rest.sum := List.sum_nonneg hrest
      rw [List.sum_cons] at hle
      have hwrap : addInt64 t x = t + x := by
        unfold addInt64
        exact wrapInt64_eq_self (t + x) (by omega) (by omega)
      rw [List.foldl_cons, hwrap, ih (t + x) (by omega) hrest (by omega),
        List.sum_cons]
      omega

/-- C8 counterexample: at `overflowWallet` (two accounts of 2 to the 62nd
power atoms each) a successful `walletBalance` call returns the int64-wrapped
accumulations, not the exact componentwise sums, so the claim that the exact
sums are always returned fails on this concrete input. -/
theorem walletBalance_exact_sum_counterexample :
    walletBalance overflowWallet true ≠
      some ((overflowWallet.accounts.map (fun a => a.totalBalance)).sum,
            (overflowWallet.accounts.map (fun a => a.balance.spendable)).sum) := by
  decide

/-- C8 (amended): every call to `walletBalance` (and `wallBalance`) re-reads
the wallet's account list via `GetAccountsRaw`; when the query succeeds the
result is exactly the pair of int64-wrapping accumulations of `TotalBalance`
and of `Balance.Spendable` over the returned accounts — equal to the exact
mathematical sums whenever the balances are nonnegative and the true sums do
not exceed the int64 maximum; when the query fails, the discarded error
leads to the nil `accountsResult` dereference and no pair is produced. -/
theorem walletBalance_rederives_wrapped_sums (wal : Wallet) (queryOk : Bool) :
    (queryOk = true →
        walletBalance wal queryOk =
          some (wrapSumInt64 (wal.accounts.map (fun a => a.totalBalance)),
                wrapSumInt64 (wal.accounts.map (fun a => a.balance.spendable))) ∧
        wallBalance wal queryOk = walletBalance wal queryOk) ∧
    (queryOk = false →
        walletBalance wal queryOk = none ∧ wallBalance wal queryOk = none) ∧
    ((∀ a ∈ wal.accounts, 0 ≤ a.totalBalance ∧ 0 ≤ a.balance.spendable) →
      (wal.accounts.map (fun a => a.totalBalance)).sum ≤ 9223372036854775807 →
      (wal.accounts.map (fun a => a.balance.spendable)).sum ≤ 9223372036854775807 →
      walletBalance wal true =
        some ((wal.accounts.map (fun a => a.totalBalance)).sum,
              (wal.accounts.map (fun a => a.balance.spendable)).sum)) := by
  refine ⟨?_, ?_, ?_⟩
  · intro hq
    subst hq
    refine ⟨?_, rfl⟩
    have hw : walletBalance wal true =
        some (wal.accounts.foldl
          (fun acc account =>
            (addInt64 acc.1 account.totalBalance,
             addInt64 acc.2 account.balance.spendable)) (0, 0)) := rfl
    rw [hw, balance_foldl_wrap]
    rfl
  · intro hq
    subst hq
    exact ⟨rfl, rfl⟩
  · intro hnn htot hsp
    have h1 : (wal.accounts.map (fun a => a.totalBalance)).foldl addInt64 0 =
        (wal.accounts.map (fun a => a.totalBalance)).sum := by
      have hall : ∀ x ∈ wal.accounts.map (fun a => a.totalBalance), 0 ≤ x := by
        intro x hx
        rcases List.mem_map.mp hx with ⟨a, ha, rfl⟩
        exact (hnn a ha).1
      simpa using addInt64_foldl_eq_sum (wal.accounts.map (fun a => a.totalBalance)) 0
        le_rfl hall (by simpa using htot)
    have h2 : (wal.accounts.map (fun a => a.balance.spendable)).foldl addInt64 0 =
        (wal.accounts.map (fun a => a.balance.spendable)).sum := by
      have hall : ∀ x ∈ wal.accounts.map (fun a => a.balance.spendable), 0 ≤ x := by
        intro x hx
        rcases List.mem_map.mp hx with ⟨a, ha, rfl⟩
        exact (hnn a ha).2
      simpa using addInt64_foldl_eq_sum (wal.accounts.map (fun a => a.balance.spendable)) 0
        le_rfl hall (by simpa using hsp)
    have hw : walletBalance wal true =
        some (wal.accounts.foldl
          (fun acc account =>
            (addInt64 acc.1 account.totalBalance,
             addInt64 acc.2 account.balance.spendable)) (0, 0)) := rfl
    rw [hw, balance_foldl_wrap, h1, h2]

/-- Witness for `walletBalance_rederives_wrapped_sums` at a concrete wallet
with two in-range accounts and a successful query: the exact sums are
returned. -/
theorem walletBalance_rederives_wrapped_sums_witness :
    walletBalance ⟨1, "wal", false, [⟨0, "acct0", 7, ⟨5⟩⟩, ⟨1, "acct1", 3, ⟨2⟩⟩]⟩ true =
      some ((([⟨0, "acct0", 7, ⟨5⟩⟩, ⟨1, "acct1", 3, ⟨2⟩⟩] : List Account).map
          (fun a => a.totalBalance)).sum,
        (([⟨0, "acct0", 7, ⟨5⟩⟩, ⟨1, "acct1", 3, ⟨2⟩⟩] : List Account).map
          (fun a => a.balance.spendable)).sum) :=
  (walletBalance_rederives_wrapped_sums
      ⟨1, "wal", false, [⟨0, "acct0", 7, ⟨5⟩⟩, ⟨1, "acct1", 3, ⟨2⟩⟩]⟩ true).2.2
    (by decide) (by decide) (by decide)

/-- C10: `setupWallet` is all-or-nothing — when the globally selected wallet
is watching-only the resulting list is empty, and otherwise it is the entire
`SortedWalletList` in order, regardless of each candidate's own watch-only
flag. -/
theorem setupWallet_all_or_nothing (ws : List Wallet) (sel : Wallet) :
    setupWallet ws sel = (if sel.isWatchingOnlyWallet then [] else ws) := by
  cases h : sel.isWatchingOnlyWallet
  · have key : ∀ (l l0 : List Wallet),
        l.foldl (fun acc wal => acc ++ [wal]) l0 = l0 ++ l := by
      intro l
      induction l with
      | nil => intro l0; simp
      | cons a rest ih => intro l0; simp [List.foldl, ih, List.append_assoc]
    simpa [setupWallet, h] using key ws []
  · have key : ∀ (l l0 : List Wallet),
        l.foldl (fun acc wal =>
          if !sel.isWatchingOnlyWallet then acc ++ [wal] else acc) l0 = l0 := by
      intro l
      induction l with
      | nil => intro l0; rfl
      | cons a rest ih => intro l0; simp [List.foldl, h, ih]
    simp [setupWallet, h, key ws []]

end Selector
